import Mathlib

/-!
Shallow embedding of the Email-Verifier repository (src/email_verifier.py,
src/app.py, src/excel_processor.py) and verification of its specification.

Network effects (DNS answers, SMTP session outcomes, unexpected runtime
exceptions) are modelled by an explicit environment record supplied to each
call; pure string processing is translated directly from the Python source.
Strings are processed as their character lists; Python machine behaviour
relevant here (regex backtracking, `$` also matching before one trailing
newline, `str.strip`, `str.rstrip('.')`, `str.split('@')`, ASCII `str.lower`)
is modelled explicitly.
-/

set_option autoImplicit false
set_option maxHeartbeats 1000000

/-- Character class `[a-zA-Z0-9._%+-]` (local part of the regex in
`EmailVerifier._is_valid_email_format` and `ExcelProcessor.email_pattern`). -/
def charClassLocal (c : Char) : Bool :=
  c.isAlphanum || c = '.' || c = '_' || c = '%' || c = '+' || c = '-'

/-- Character class `[a-zA-Z0-9.-]` (domain part of the same regex). -/
def charClassDomain (c : Char) : Bool :=
  c.isAlphanum || c = '.' || c = '-'

/-- Split a character list at the first occurrence of `t`, returning the
parts before and after it, or `none` when `t` does not occur. -/
def splitAtFirst (t : Char) : List Char → Option (List Char × List Char)
  | [] => none
  | c :: cs =>
    if c = t then some ([], cs)
    else
      match splitAtFirst t cs with
      | none => none
      | some (l, r) => some (c :: l, r)

/-- Match of the regex fragment `[a-zA-Z0-9.-]+\.[a-zA-Z]{2,}` against the
whole of `d`.  Since `[a-zA-Z]` contains no dot, the dot of the fragment can
only be the last dot of `d`, so the backtracking match succeeds exactly when
the part before the last dot is a nonempty run of the domain class and the
part after it is two or more ASCII letters. -/
def domainOk (d : List Char) : Bool :=
  match splitAtFirst '.' d.reverse with
  | none => false
  | some (vrev, urev) =>
    decide (urev ≠ []) && urev.all charClassDomain &&
    decide (2 ≤ vrev.length) && vrev.all Char.isAlpha

/-- Full match of the regex body
`[a-zA-Z0-9._%+-]+@[a-zA-Z0-9.-]+\.[a-zA-Z]{2,}` against `cs`.  No character
class contains `@`, so the `@` of the pattern must align with the first `@`
of the string. -/
def reCore (cs : List Char) : Bool :=
  match splitAtFirst '@' cs with
  | none => false
  | some (lp, d) => decide (lp ≠ []) && lp.all charClassLocal && domainOk d

/-- `re.match(r'^[a-zA-Z0-9._%+-]+@[a-zA-Z0-9.-]+\.[a-zA-Z]{2,}$', s)` is not
`None`.  Python `$` matches at the end of the string or just before a single
trailing newline, hence the second disjunct. -/
def reMatchEmail (cs : List Char) : Bool :=
  reCore cs || (decide (cs.getLast? = some '\n') && reCore cs.dropLast)

/-- `EmailVerifier._is_valid_email_format` (email_verifier.py lines 93-104):
matches the pattern against the string as given, without any trimming. -/
def _is_valid_email_format (email : String) : Bool :=
  reMatchEmail email.data

/-- ASCII whitespace stripped by Python `str.strip()` (space, tab, newline,
carriage return, vertical tab, form feed); the inputs of interest are ASCII. -/
def isPyWs (c : Char) : Bool :=
  c = ' ' || c = '\t' || c = '\n' || c = '\r' || c.toNat = 11 || c.toNat = 12

/-- Python `s.strip()` on a character list. -/
def pyStrip (cs : List Char) : List Char :=
  ((cs.dropWhile isPyWs).reverse.dropWhile isPyWs).reverse

/-- `ExcelProcessor.is_valid_email_format` (excel_processor.py lines 80-93):
`bool(re.match(self.email_pattern, email.strip()))`; the surrounding
`try/except` only fires for non-string arguments, which the embedding's
typing excludes. -/
def ep_is_valid_email_format (email : String) : Bool :=
  reMatchEmail (pyStrip email.data)

/-- Python `s.rstrip('.')`: remove every trailing `'.'`. -/
def pyRstripDots (s : String) : String :=
  String.mk ((s.data.reverse.dropWhile (fun c => c = '.')).reverse)

/-- Python `s.lower()` restricted to ASCII letters (the strings lowered by
the source are ASCII domains). -/
def strLowerAscii (s : String) : String :=
  String.mk (s.data.map Char.toLower)

/-- Python `s.split(t)` for a one-character separator `t`. -/
def pySplitOnChar (t : Char) : List Char → List (List Char)
  | [] => [[]]
  | c :: cs =>
    let r := pySplitOnChar t cs
    if c = t then [] :: r
    else
      match r with
      | [] => [[c]]
      | x :: xs => (c :: x) :: xs

/-- `email.split('@')[1].lower()` (email_verifier.py line 41), as reached
after the format check guarantees the index exists. -/
def emailDomain (email : String) : String :=
  String.mk (((pySplitOnChar '@' email.data).getD 1 []).map Char.toLower)

/-- `str(mx_records[0].exchange).rstrip('.')` (email_verifier.py lines 45-46):
the host the probe will contact, taken from the FIRST record of the answer in
the order the DNS library returned it; `none` models the `IndexError` of an
empty answer, which the surrounding `except` turns into the no-MX branch. -/
def chosenMxHost (recs : List (Nat × String)) : Option String :=
  match recs with
  | [] => none
  | r :: _ => some (pyRstripDots r.2)

/-- Python exceptions that the SMTP block of `verify_email` can observe,
in the order of its `except` clauses; `generic` stands for any other
`Exception` with its `str()` message. -/
inductive PyExc where
  | smtpConnect
  | smtpDisconnected
  | smtpRecipientsRefused
  | socketTimeout
  | generic (msg : String)
  deriving DecidableEq

/-- Environment of one `verify_email` call: an unexpected exception raised
outside the two guarded blocks (reaching the outer `except Exception`), the
outcome of `dns.resolver.resolve(domain, 'MX')` as a list of
(preference, exchange-string) records in answer order, and the outcome of the
SMTP session (connect/helo/mail/rcpt/quit) against a given host, where `ok`
carries the `(code, message)` of the `rcpt` step. -/
structure Env where
  outerExc : Option String
  mxResult : Except PyExc (List (Nat × String))
  smtpResult : String → Except PyExc (Int × String)

/-- Body of `EmailVerifier.verify_email` (email_verifier.py lines 35-88)
inside the outer `try`: an `Except.error` models an exception escaping to the
outer handler, which given the source's inner handlers can only be the
injected unexpected fault. -/
def verify_email_body (email : String) (env : Env) : Except String (Bool × String) :=
  match env.outerExc with
  | some m => Except.error m
  | none =>
    if _is_valid_email_format email = false then
      Except.ok (false, "Invalid email format")
    else
      let domain := emailDomain email
      match env.mxResult with
      | Except.error _ => Except.ok (false, "No MX record found for domain: " ++ domain)
      | Except.ok recs =>
        match chosenMxHost recs with
        | none => Except.ok (false, "No MX record found for domain: " ++ domain)
        | some host =>
          match env.smtpResult host with
          | Except.ok (code, _) =>
            if code = 250 then Except.ok (true, "Email address exists")
            else if code = 550 then Except.ok (false, "Email address does not exist")
            else if code = 552 then Except.ok (false, "Mailbox full or quota exceeded")
            else if code = 553 then Except.ok (false, "Invalid email address")
            else Except.ok (false, "SMTP error code: " ++ toString code)
          | Except.error PyExc.smtpConnect => Except.ok (false, "Cannot connect to SMTP server")
          | Except.error PyExc.smtpDisconnected => Except.ok (false, "SMTP server disconnected")
          | Except.error PyExc.smtpRecipientsRefused => Except.ok (false, "Recipient refused")
          | Except.error PyExc.socketTimeout => Except.ok (false, "SMTP connection timeout")
          | Except.error (PyExc.generic m) => Except.ok (false, "SMTP error: " ++ m)

/-- `EmailVerifier.verify_email` (email_verifier.py lines 25-91): the outer
`except Exception` turns any escaped exception into `(False, "error")`. -/
def verify_email (email : String) (env : Env) : Bool × String :=
  match verify_email_body email env with
  | Except.ok r => r
  | Except.error _ => (false, "error")

/-- The four statuses `app.py` writes into `Email_Verification_Status`. -/
inductive Verdict where
  | valid
  | invalid
  | invalidFormat
  | error
  deriving DecidableEq

/-- Classification of a `verify_email` result by `app.py` lines 167-175:
`is_valid` gives Valid; otherwise detail `"error"` gives Error, anything else
gives Invalid. -/
def appVerdict (is_valid : Bool) (details : String) : Verdict :=
  if is_valid then Verdict.valid
  else if details = "error" then Verdict.error
  else Verdict.invalid

/-- Python-dict insertion on an association list: an existing key keeps its
position and gets the new value, a new key is appended. -/
def dictInsert (m : List (String × (Bool × String))) (k : String) (v : Bool × String) :
    List (String × (Bool × String)) :=
  match m with
  | [] => [(k, v)]
  | (k1, v1) :: rest => if k1 = k then (k1, v) :: rest else (k1, v1) :: dictInsert rest k v

/-- `EmailVerifier.verify_email_batch` (email_verifier.py lines 106-130):
`results[email] = {'is_valid': ..., 'details': ...}` over the input list in
order; the `time.sleep(delay)` rate limiting has no effect on the returned
dictionary and is not modelled. -/
def verify_email_batch (emails : List String) (env : String → Env) :
    List (String × (Bool × String)) :=
  emails.foldl (fun m e => dictInsert m e (verify_email e (env e))) []

/-- One row of the `verify_emails` loop in app.py lines 152-177: a missing
cell (`pd.isna`) or an `ExcelProcessor.is_valid_email_format` rejection is
marked Invalid Format without any probe; otherwise the `verify_email` result
is classified. -/
def app_row_status (cell : Option String) (env : String → Env) : Verdict :=
  match cell with
  | none => Verdict.invalidFormat
  | some e =>
    if ep_is_valid_email_format e = false then Verdict.invalidFormat
    else
      let r := verify_email e (env e)
      appVerdict r.1 r.2

/-- The per-row statuses produced by one run of the `verify_emails` loop. -/
def app_statuses (rows : List (Option String)) (env : String → Env) : List Verdict :=
  rows.map (fun c => app_row_status c env)

/-- Number of rows carrying verdict `v`. -/
def countVerdict (v : Verdict) : List Verdict → Nat
  | [] => 0
  | x :: xs => (if x = v then 1 else 0) + countVerdict v xs

/-- The dictionary returned by `EmailVerifier.get_domain_info`
(email_verifier.py lines 159-175). -/
structure DomainInfo where
  domain : String
  mx_records : List String
  a_records : List String
  has_mx : Bool
  resolvable : Bool
  error : Option String
  deriving DecidableEq

/-- Environment of one `get_domain_info` call: outcomes of the MX and A
queries, each either an answer list or an exception message. -/
structure DnsEnv where
  mx : Except String (List (Nat × String))
  a : Except String (List String)

/-- `EmailVerifier.get_domain_info` (email_verifier.py lines 132-175): each
query has its own bare `except` yielding an empty list; the outer `except`
(reached when `split('@')[1]` raises `IndexError`, i.e. the address has no
`@`) yields the all-empty record with the exception message. -/
def get_domain_info (email : String) (env : DnsEnv) : DomainInfo :=
  let parts := pySplitOnChar '@' email.data
  if 2 ≤ parts.length then
    let domain := String.mk ((parts.getD 1 []).map Char.toLower)
    let mx_list :=
      match env.mx with
      | Except.ok recs => recs.map (fun r => pyRstripDots r.2)
      | Except.error _ => []
    let a_list :=
      match env.a with
      | Except.ok l => l
      | Except.error _ => []
    { domain := domain, mx_records := mx_list, a_records := a_list,
      has_mx := decide (0 < mx_list.length), resolvable := decide (0 < a_list.length),
      error := none }
  else
    { domain := "unknown", mx_records := [], a_records := [],
      has_mx := false, resolvable := false, error := some "list index out of range" }

/-- Insertion into a list sorted by ascending preference value. -/
def insertByPref (x : Nat × String) : List (Nat × String) → List (Nat × String)
  | [] => [x]
  | y :: ys => if x.1 ≤ y.1 then x :: y :: ys else y :: insertByPref x ys

/-- Sort records by ascending preference value. -/
def sortByPref (l : List (Nat × String)) : List (Nat × String) :=
  l.foldr insertByPref []

/-- Modelled from the spec (section 4.2), for comparison with the code's
`chosenMxHost`: "return targets ordered by ascending preference value
(lower = higher priority), trimming any trailing root-zone separator from
each hostname". -/
def specResolveMailTargets (recs : List (Nat × String)) : List String :=
  (sortByPref recs).map (fun r => pyRstripDots r.2)

/-- First-occurrence deduplication accumulator. -/
def firstDedupAux (acc : List String) : List String → List String
  | [] => acc
  | e :: es => if e ∈ acc then firstDedupAux acc es else firstDedupAux (acc ++ [e]) es

/-- The distinct members of `l` in order of first occurrence: the key
sequence of a Python dict filled along `l`. -/
def firstDedup (l : List String) : List String :=
  firstDedupAux [] l

/-- `Except.isOk` as a plain definition. -/
def isOkB {ε α : Type} : Except ε α → Bool
  | Except.ok _ => true
  | Except.error _ => false

/-- MX lookup failure as observed by `verify_email`: the resolve call raised,
or the answer was empty so `mx_records[0]` raised `IndexError` (both are
caught by the same handler). -/
def mxLookupFailed (env : Env) : Prop :=
  ∀ recs, env.mxResult = Except.ok recs → recs = []

/-! ### Helper lemmas -/

theorem string_append_data (s t : String) : (s ++ t).data = s.data ++ t.data := rfl

theorem append_ne_of_length {p q : String} (t : String)
    (h : q.data.length < p.data.length) : p ++ t ≠ q := by
  intro he
  have h1 : (p ++ t).data = q.data := congrArg String.data he
  rw [string_append_data] at h1
  have h2 := congrArg List.length h1
  rw [List.length_append] at h2
  omega

theorem appVerdict_false (d : String) :
    appVerdict false d = Verdict.invalid ∨ appVerdict false d = Verdict.error := by
  by_cases hd : d = "error" <;> simp [appVerdict, hd]

theorem splitAtFirst_some {t : Char} : ∀ {cs l r : List Char},
    splitAtFirst t cs = some (l, r) → cs = l ++ t :: r ∧ t ∉ l := by
  intro cs
  induction cs with
  | nil => intro l r h; cases h
  | cons c cs ih =>
    intro l r h
    unfold splitAtFirst at h
    by_cases hc : c = t
    · rw [if_pos hc] at h
      injection h with h
      injection h with h1 h2
      subst h1; subst h2; subst hc
      exact ⟨rfl, List.not_mem_nil c⟩
    · rw [if_neg hc] at h
      cases hs : splitAtFirst t cs with
      | none => rw [hs] at h; cases h
      | some p =>
        obtain ⟨l0, r0⟩ := p
        rw [hs] at h
        injection h with h
        injection h with h1 h2
        subst h1; subst h2
        obtain ⟨hd, hm⟩ := ih hs
        constructor
        · rw [hd]; rfl
        · intro hmem
          rcases List.mem_cons.mp hmem with h1 | h1
          · exact hc h1.symm
          · exact hm h1

theorem mem_of_splitAtFirst {t : Char} {cs l r : List Char}
    (h : splitAtFirst t cs = some (l, r)) : t ∈ cs := by
  obtain ⟨hd, -⟩ := splitAtFirst_some h
  rw [hd]; simp

theorem splitAtFirst_append {t : Char} (r : List Char) :
    ∀ {l : List Char}, t ∉ l → splitAtFirst t (l ++ t :: r) = some (l, r) := by
  intro l
  induction l with
  | nil => intro _; simp [splitAtFirst]
  | cons c cs ih =>
    intro h
    have hc : ¬ c = t := by
      intro e; apply h; rw [e]; exact List.mem_cons_self t cs
    have h2 : t ∉ cs := fun m => h (List.mem_cons_of_mem _ m)
    simp only [List.cons_append, splitAtFirst, if_neg hc, List.append_eq]
    rw [ih h2]

theorem domainOk_dot {d : List Char} (h : domainOk d = true) : '.' ∈ d := by
  unfold domainOk at h
  cases hs : splitAtFirst '.' d.reverse with
  | none => rw [hs] at h; cases h
  | some p =>
    obtain ⟨v, u⟩ := p
    obtain ⟨hd, -⟩ := splitAtFirst_some hs
    have hm : '.' ∈ d.reverse := by rw [hd]; simp
    exact List.mem_reverse.mp hm

theorem reCore_struct {cs : List Char} (h : reCore cs = true) :
    ∃ lp d, splitAtFirst '@' cs = some (lp, d) ∧ '.' ∈ d := by
  unfold reCore at h
  cases hs : splitAtFirst '@' cs with
  | none => rw [hs] at h; cases h
  | some p =>
    obtain ⟨lp, d⟩ := p
    rw [hs, Bool.and_eq_true, Bool.and_eq_true] at h
    exact ⟨lp, d, rfl, domainOk_dot h.2⟩

theorem eq_dropLast_append {α : Type} {a : α} : ∀ {l : List α},
    l.getLast? = some a → l = l.dropLast ++ [a] := by
  intro l
  induction l with
  | nil => intro h; cases h
  | cons x xs ih =>
    intro h
    cases xs with
    | nil =>
      simp only [List.getLast?_singleton, Option.some.injEq] at h
      subst h; rfl
    | cons y ys =>
      rw [List.getLast?_cons_cons] at h
      have hys := ih h
      calc x :: y :: ys = x :: ((y :: ys).dropLast ++ [a]) := by rw [← hys]
        _ = (x :: y :: ys).dropLast ++ [a] := by simp [List.dropLast]

theorem reMatchEmail_struct {cs : List Char} (h : reMatchEmail cs = true) :
    ∃ lp d, splitAtFirst '@' cs = some (lp, d) ∧ '.' ∈ d := by
  unfold reMatchEmail at h
  rw [Bool.or_eq_true] at h
  rcases h with h | h
  · exact reCore_struct h
  · rw [Bool.and_eq_true] at h
    obtain ⟨h1, h2⟩ := h
    have hlast : cs.getLast? = some '\n' := of_decide_eq_true h1
    obtain ⟨lp, d, hsp, hdot⟩ := reCore_struct h2
    obtain ⟨hdec, hnot⟩ := splitAtFirst_some hsp
    have hcs : cs = lp ++ '@' :: (d ++ ['\n']) := by
      conv_lhs => rw [eq_dropLast_append hlast, hdec]
      simp
    rw [hcs]
    exact ⟨lp, d ++ ['\n'], splitAtFirst_append _ hnot, by simp [hdot]⟩

theorem verdict_partition (l : List Verdict) :
    countVerdict Verdict.valid l + countVerdict Verdict.invalid l +
      countVerdict Verdict.error l + countVerdict Verdict.invalidFormat l = l.length := by
  induction l with
  | nil => rfl
  | cons x xs ih =>
    cases x <;> simp [countVerdict] <;> omega

theorem dictInsert_keys (m : List (String × (Bool × String))) (k : String) (v : Bool × String) :
    (dictInsert m k v).map Prod.fst =
      if k ∈ m.map Prod.fst then m.map Prod.fst else m.map Prod.fst ++ [k] := by
  induction m with
  | nil => simp [dictInsert]
  | cons p rest ih =>
    obtain ⟨k1, v1⟩ := p
    by_cases hk : k1 = k
    · subst hk; simp [dictInsert]
    · have hk2 : ¬ k = k1 := fun e => hk e.symm
      simp only [dictInsert, if_neg hk, List.map_cons, ih]
      by_cases hm : k ∈ rest.map Prod.fst
      · simp [hm, List.mem_cons, hk2]
      · simp [hm, List.mem_cons, hk2]

theorem batch_keys_aux (f : String → Bool × String) :
    ∀ (emails : List String) (m : List (String × (Bool × String))),
      ((emails.foldl (fun acc e => dictInsert acc e (f e)) m).map Prod.fst) =
        firstDedupAux (m.map Prod.fst) emails := by
  intro emails
  induction emails with
  | nil => intro m; rfl
  | cons e es ih =>
    intro m
    simp only [List.foldl_cons, firstDedupAux]
    rw [ih (dictInsert m e (f e)), dictInsert_keys]
    by_cases hm : e ∈ m.map Prod.fst
    · simp [hm]
    · simp [hm]

theorem body_isOk (email : String) (mx : Except PyExc (List (Nat × String)))
    (smtp : String → Except PyExc (Int × String)) :
    isOkB (verify_email_body email ⟨none, mx, smtp⟩) = true := by
  unfold verify_email_body
  simp only
  by_cases hfmt : _is_valid_email_format email = false
  · simp [hfmt, isOkB]
  · simp only [if_neg hfmt]
    cases mx with
    | error e => rfl
    | ok recs =>
      cases recs with
      | nil => rfl
      | cons r rest =>
        simp only [chosenMxHost]
        cases hs : smtp (pyRstripDots r.2) with
        | ok p =>
          obtain ⟨code, msg⟩ := p
          simp only [hs]
          by_cases h1 : code = 250
          · simp [h1, isOkB]
          · by_cases h2 : code = 550
            · simp [h1, h2, isOkB]
            · by_cases h3 : code = 552
              · simp [h1, h2, h3, isOkB]
              · by_cases h4 : code = 553
                · simp [h1, h2, h3, h4, isOkB]
                · simp [h1, h2, h3, h4, isOkB]
        | error e => cases e <;> simp [hs, isOkB]

theorem verify_email_cases (email : String) (env : Env) :
    verify_email email env = (false, "error") ∨
    verify_email email env = (false, "Invalid email format") ∨
    verify_email email env = (false, "No MX record found for domain: " ++ emailDomain email) ∨
    verify_email email env = (true, "Email address exists") ∨
    verify_email email env = (false, "Email address does not exist") ∨
    verify_email email env = (false, "Mailbox full or quota exceeded") ∨
    verify_email email env = (false, "Invalid email address") ∨
    (∃ c : Int, verify_email email env = (false, "SMTP error code: " ++ toString c)) ∨
    verify_email email env = (false, "Cannot connect to SMTP server") ∨
    verify_email email env = (false, "SMTP server disconnected") ∨
    verify_email email env = (false, "Recipient refused") ∨
    verify_email email env = (false, "SMTP connection timeout") ∨
    (∃ m, verify_email email env = (false, "SMTP error: " ++ m)) := by
  obtain ⟨oe, mx, smtp⟩ := env
  cases oe with
  | some m => exact Or.inl rfl
  | none =>
    cases hfmt : _is_valid_email_format email with
    | false =>
      exact Or.inr (Or.inl (by simp [verify_email, verify_email_body, hfmt]))
    | true =>
      cases mx with
      | error e =>
        exact Or.inr (Or.inr (Or.inl (by simp [verify_email, verify_email_body, hfmt])))
      | ok recs =>
        cases recs with
        | nil =>
          exact Or.inr (Or.inr (Or.inl
            (by simp [verify_email, verify_email_body, hfmt, chosenMxHost])))
        | cons r rest =>
          cases hs : smtp (pyRstripDots r.2) with
          | ok p =>
            obtain ⟨code, msg⟩ := p
            by_cases h1 : code = 250
            · subst h1
              exact Or.inr (Or.inr (Or.inr (Or.inl
                (by simp [verify_email, verify_email_body, hfmt, chosenMxHost, hs]))))
            · by_cases h2 : code = 550
              · subst h2
                exact Or.inr (Or.inr (Or.inr (Or.inr (Or.inl
                  (by simp [verify_email, verify_email_body, hfmt, chosenMxHost, hs])))))
              · by_cases h3 : code = 552
                · subst h3
                  exact Or.inr (Or.inr (Or.inr (Or.inr (Or.inr (Or.inl
                    (by simp [verify_email, verify_email_body, hfmt, chosenMxHost, hs]))))))
                · by_cases h4 : code = 553
                  · subst h4
                    exact Or.inr (Or.inr (Or.inr (Or.inr (Or.inr (Or.inr (Or.inl
                      (by simp [verify_email, verify_email_body, hfmt, chosenMxHost, hs])))))))
                  · refine Or.inr (Or.inr (Or.inr (Or.inr (Or.inr (Or.inr (Or.inr (Or.inl ?_)))))))
                    exact ⟨code,
                      by simp [verify_email, verify_email_body, hfmt, chosenMxHost, hs, h1, h2, h3, h4]⟩
          | error e =>
            cases e with
            | smtpConnect =>
              refine Or.inr (Or.inr (Or.inr (Or.inr (Or.inr (Or.inr (Or.inr (Or.inr (Or.inl ?_))))))))
              simp [verify_email, verify_email_body, hfmt, chosenMxHost, hs]
            | smtpDisconnected =>
              refine Or.inr (Or.inr (Or.inr (Or.inr (Or.inr (Or.inr (Or.inr (Or.inr (Or.inr (Or.inl ?_)))))))))
              simp [verify_email, verify_email_body, hfmt, chosenMxHost, hs]
            | smtpRecipientsRefused =>
              refine Or.inr (Or.inr (Or.inr (Or.inr (Or.inr (Or.inr (Or.inr (Or.inr (Or.inr (Or.inr (Or.inl ?_))))))))))
              simp [verify_email, verify_email_body, hfmt, chosenMxHost, hs]
            | socketTimeout =>
              refine Or.inr (Or.inr (Or.inr (Or.inr (Or.inr (Or.inr (Or.inr (Or.inr (Or.inr (Or.inr (Or.inr (Or.inl ?_)))))))))))
              simp [verify_email, verify_email_body, hfmt, chosenMxHost, hs]
            | generic m2 =>
              refine Or.inr (Or.inr (Or.inr (Or.inr (Or.inr (Or.inr (Or.inr (Or.inr (Or.inr (Or.inr (Or.inr (Or.inr ?_)))))))))))
              exact ⟨m2, by simp [verify_email, verify_email_body, hfmt, chosenMxHost, hs]⟩

/-! ### Claim theorems -/

/-- Claim C1 (counterexample): a probe that times out does NOT get verdict
Error.  With a concrete format-valid address, a successful MX answer and a
`socket.timeout` from the SMTP session, `verify_email` returns
`(False, "SMTP connection timeout")`, which the `verify_emails` loop of
app.py classifies as Invalid — and Invalid is distinguishable from Error. -/
theorem timeout_classified_invalid :
    appVerdict
        (verify_email "a@b.com"
          ⟨none, Except.ok [(10, "mx.b.com.")], fun _ => Except.error PyExc.socketTimeout⟩).1
        (verify_email "a@b.com"
          ⟨none, Except.ok [(10, "mx.b.com.")], fun _ => Except.error PyExc.socketTimeout⟩).2
      = Verdict.invalid ∧ Verdict.invalid ≠ Verdict.error :=
  ⟨rfl, by decide⟩

/-- Claim C1 (amended): whenever the probe of a format-valid address with a
resolvable domain raises `socket.timeout`, `verify_email` returns
`(False, "SMTP connection timeout")` and app.py classifies that result as
Invalid (the Error bucket is reached only by the outer catch-all detail
`"error"`). -/
theorem timeout_detail_and_verdict (email : String) (env : Env)
    (recs : List (Nat × String)) (host : String)
    (hout : env.outerExc = none) (hfmt : _is_valid_email_format email = true)
    (hmx : env.mxResult = Except.ok recs) (hhost : chosenMxHost recs = some host)
    (hsmtp : env.smtpResult host = Except.error PyExc.socketTimeout) :
    verify_email email env = (false, "SMTP connection timeout") ∧
    appVerdict false "SMTP connection timeout" = Verdict.invalid := by
  constructor
  · simp [verify_email, verify_email_body, hout, hfmt, hmx, hhost, hsmtp]
  · rfl

/-- Witness for C1 (amended) at a concrete input. -/
theorem timeout_detail_and_verdict_witness :
    verify_email "a@b.com"
        ⟨none, Except.ok [(10, "mx.b.com.")], fun _ => Except.error PyExc.socketTimeout⟩ =
      (false, "SMTP connection timeout") :=
  (timeout_detail_and_verdict "a@b.com"
    ⟨none, Except.ok [(10, "mx.b.com.")], fun _ => Except.error PyExc.socketTimeout⟩
    [(10, "mx.b.com.")] "mx.b.com" rfl rfl rfl rfl rfl).1

/-- Claim C3 (confirmed): the recipient-step status code is classified as in
the source: 250 is the only Valid outcome with detail "Email address exists";
550, 552, 553 give Invalid with their fixed texts; any other numeric code
gives Invalid with detail "SMTP error code: {code}". -/
theorem code_classification (email : String) (env : Env)
    (recs : List (Nat × String)) (host msg : String) (code : Int)
    (hout : env.outerExc = none) (hfmt : _is_valid_email_format email = true)
    (hmx : env.mxResult = Except.ok recs) (hhost : chosenMxHost recs = some host)
    (hsmtp : env.smtpResult host = Except.ok (code, msg)) :
    (code = 250 → verify_email email env = (true, "Email address exists") ∧
      appVerdict true "Email address exists" = Verdict.valid) ∧
    (code = 550 → verify_email email env = (false, "Email address does not exist") ∧
      appVerdict false "Email address does not exist" = Verdict.invalid) ∧
    (code = 552 → verify_email email env = (false, "Mailbox full or quota exceeded") ∧
      appVerdict false "Mailbox full or quota exceeded" = Verdict.invalid) ∧
    (code = 553 → verify_email email env = (false, "Invalid email address") ∧
      appVerdict false "Invalid email address" = Verdict.invalid) ∧
    (code ≠ 250 → code ≠ 550 → code ≠ 552 → code ≠ 553 →
      verify_email email env = (false, "SMTP error code: " ++ toString code) ∧
      appVerdict false ("SMTP error code: " ++ toString code) = Verdict.invalid) := by
  refine ⟨?_, ?_, ?_, ?_, ?_⟩
  · intro h; subst h
    exact ⟨by simp [verify_email, verify_email_body, hout, hfmt, hmx, hhost, hsmtp], rfl⟩
  · intro h; subst h
    exact ⟨by simp [verify_email, verify_email_body, hout, hfmt, hmx, hhost, hsmtp], rfl⟩
  · intro h; subst h
    exact ⟨by simp [verify_email, verify_email_body, hout, hfmt, hmx, hhost, hsmtp], rfl⟩
  · intro h; subst h
    exact ⟨by simp [verify_email, verify_email_body, hout, hfmt, hmx, hhost, hsmtp], rfl⟩
  · intro h1 h2 h3 h4
    constructor
    · simp [verify_email, verify_email_body, hout, hfmt, hmx, hhost, hsmtp, h1, h2, h3, h4]
    · simp [appVerdict, append_ne_of_length (p := "SMTP error code: ") (q := "error")
        (toString code) (by decide)]

/-- Witness for C3 at concrete inputs (code 550 and code 999). -/
theorem code_classification_witness :
    verify_email "a@b.com"
        ⟨none, Except.ok [(10, "mx.b.com.")], fun _ => Except.ok (550, "no")⟩ =
      (false, "Email address does not exist") ∧
    verify_email "a@b.com"
        ⟨none, Except.ok [(10, "mx.b.com.")], fun _ => Except.ok (999, "odd")⟩ =
      (false, "SMTP error code: 999") :=
  ⟨((code_classification "a@b.com"
      ⟨none, Except.ok [(10, "mx.b.com.")], fun _ => Except.ok (550, "no")⟩
      [(10, "mx.b.com.")] "mx.b.com" "no" 550 rfl rfl rfl rfl rfl).2.1 rfl).1,
   ((code_classification "a@b.com"
      ⟨none, Except.ok [(10, "mx.b.com.")], fun _ => Except.ok (999, "odd")⟩
      [(10, "mx.b.com.")] "mx.b.com" "odd" 999 rfl rfl rfl rfl rfl).2.2.2.2
      (by decide) (by decide) (by decide) (by decide)).1⟩

/-- Claim C4 (counterexample): the code does not return targets ordered by
ascending preference.  On the answer `[(20, b.example.), (10, a.example.)]`
(as the DNS library returned it) the probe contacts `b.example`, the record
with the HIGHER preference value, while the spec-side ordered resolution
puts `a.example` first. -/
theorem mx_not_sorted_by_preference :
    chosenMxHost [(20, "b.example."), (10, "a.example.")] = some "b.example" ∧
    specResolveMailTargets [(20, "b.example."), (10, "a.example.")] =
      ["a.example", "b.example"] ∧
    chosenMxHost [(20, "b.example."), (10, "a.example.")] ≠
      (specResolveMailTargets [(20, "b.example."), (10, "a.example.")]).head? :=
  ⟨rfl, rfl, by decide⟩

/-- Claim C4 (amended): on a non-empty answer the code uses exactly the FIRST
record in the order the DNS library returned it, with all trailing root-zone
dots trimmed from its hostname, and the preference values have no influence
on the choice; only that single target is used. -/
theorem mx_first_record_used (p : Nat) (h : String) (rest : List (Nat × String)) :
    chosenMxHost ((p, h) :: rest) = some (pyRstripDots h) ∧
    (∀ q : Nat, chosenMxHost ((q, h) :: rest) = chosenMxHost ((p, h) :: rest)) ∧
    chosenMxHost [] = (none : Option String) :=
  ⟨rfl, fun _ => rfl, rfl⟩

/-- Claim C5 (counterexample): `EmailVerifier._is_valid_email_format` does
NOT trim: `" a@b.com"` is a valid address once stripped, yet the verifier's
format check rejects it. -/
theorem verifier_format_does_not_trim :
    reMatchEmail (pyStrip (" a@b.com").data) = true ∧
    _is_valid_email_format " a@b.com" = false :=
  ⟨rfl, rfl⟩

/-- Claim C5 (amended): only `ExcelProcessor.is_valid_email_format` trims
leading/trailing whitespace internally before matching: every string whose
stripped form matches the pattern is accepted by it, whitespace and all;
`EmailVerifier._is_valid_email_format` matches the raw string (see the
counterexample). -/
theorem excel_format_trims (s : String)
    (hstrip : reMatchEmail (pyStrip s.data) = true) :
    ep_is_valid_email_format s = true := hstrip

/-- Witness for C5 (amended) at a concrete input. -/
theorem excel_format_trims_witness : ep_is_valid_email_format " x@y.org " = true :=
  excel_format_trims " x@y.org " rfl

/-- Claim C7 (confirmed): for a format-valid address whose MX lookup fails
(resolver exception or empty answer), `verify_email` returns Invalid with
detail "No MX record found for domain: {domain}", which contains the
lowercased domain of the address; app.py classifies it as Invalid. -/
theorem no_mx_verdict (email : String) (env : Env)
    (hout : env.outerExc = none) (hfmt : _is_valid_email_format email = true)
    (hmx : mxLookupFailed env) :
    verify_email email env = (false, "No MX record found for domain: " ++ emailDomain email) ∧
    appVerdict false ("No MX record found for domain: " ++ emailDomain email) =
      Verdict.invalid := by
  constructor
  · cases hmxr : env.mxResult with
    | error e => simp [verify_email, verify_email_body, hout, hfmt, hmxr]
    | ok recs =>
      have hnil : recs = [] := hmx recs hmxr
      subst hnil
      simp [verify_email, verify_email_body, hout, hfmt, hmxr, chosenMxHost]
  · simp [appVerdict, append_ne_of_length (p := "No MX record found for domain: ")
      (q := "error") (emailDomain email) (by decide)]

/-- Witness for C7 at a concrete input: the domain name appears in the
detail. -/
theorem no_mx_verdict_witness :
    verify_email "a@NoSuch.test"
        ⟨none, Except.error (PyExc.generic "NXDOMAIN"), fun _ => Except.ok (250, "")⟩ =
      (false, "No MX record found for domain: nosuch.test") :=
  (no_mx_verdict "a@NoSuch.test"
    ⟨none, Except.error (PyExc.generic "NXDOMAIN"), fun _ => Except.ok (250, "")⟩
    rfl rfl (fun _ hr => nomatch hr)).1

/-- Claim C2 (counterexample): `verify_email_batch` keys its results by the
address string, so a batch of N = 2 addresses containing a duplicate
produces only 1 result record, not 2. -/
theorem batch_duplicates_collapse :
    (verify_email_batch ["a@b.com", "a@b.com"]
        (fun _ => ⟨none, Except.ok [(10, "mx.example.")], fun _ => Except.ok (250, "ok")⟩)).length
      = 1 ∧
    (["a@b.com", "a@b.com"] : List String).length = 2 :=
  ⟨rfl, rfl⟩

/-- Claim C2 (amended): `verify_email_batch` produces one record per DISTINCT
input address, keyed in first-occurrence order (duplicates collapse onto one
entry); at the app level every one of the N rows of the `verify_emails` loop
receives exactly one status, and the counts satisfy
valid + invalid + error + formatErrors = N. -/
theorem batch_and_counts (rows : List (Option String)) (emails : List String)
    (env : String → Env) :
    (app_statuses rows env).length = rows.length ∧
    countVerdict Verdict.valid (app_statuses rows env) +
      countVerdict Verdict.invalid (app_statuses rows env) +
      countVerdict Verdict.error (app_statuses rows env) +
      countVerdict Verdict.invalidFormat (app_statuses rows env) = rows.length ∧
    (verify_email_batch emails env).map Prod.fst = firstDedup emails := by
  refine ⟨by simp [app_statuses], ?_, ?_⟩
  · rw [verdict_partition]
    simp [app_statuses]
  · have hkeys := batch_keys_aux (fun e => verify_email e (env e)) emails []
    simpa [verify_email_batch, firstDedup] using hkeys

/-- Claim C6 (confirmed): any string with no `@`, or with no dot in the part
after its first `@`, is rejected by `EmailVerifier._is_valid_email_format`
(which, as a function of the input string alone, is pure and total). -/
theorem email_format_rejects (s : String)
    (h : '@' ∉ s.data ∨ ∃ lp d, splitAtFirst '@' s.data = some (lp, d) ∧ '.' ∉ d) :
    _is_valid_email_format s = false := by
  cases hb : _is_valid_email_format s with
  | false => rfl
  | true =>
    exfalso
    obtain ⟨lp, d, hsp, hdot⟩ := reMatchEmail_struct (show reMatchEmail s.data = true from hb)
    rcases h with h | ⟨lp2, d2, hsp2, hdot2⟩
    · exact h (mem_of_splitAtFirst hsp)
    · rw [hsp] at hsp2
      injection hsp2 with h0
      injection h0 with h1 h2
      subst h2
      exact hdot2 hdot

/-- Witness for C6 at concrete inputs: a string without `@` and a string
without a dot after its `@` are both rejected. -/
theorem email_format_rejects_witness :
    _is_valid_email_format "plainaddress" = false ∧
    _is_valid_email_format "a@bcom" = false :=
  ⟨email_format_rejects "plainaddress" (Or.inl (by decide)),
   email_format_rejects "a@bcom"
     (Or.inr ⟨['a'], ['b', 'c', 'o', 'm'], rfl, by decide⟩)⟩

/-- Claim C8 (confirmed): a single-address probe never propagates an
exception: for every address and environment, `verify_email` returns a
(bool, string) pair whose detail is a nonempty descriptive string, every
inner error kind is recovered inside the body (the body is `ok`) or the
outer handler produces `(False, "error")`, and every failure result is
classified Invalid or Error by app.py. -/
theorem probe_never_raises (email : String) (env : Env) :
    ∃ b d, verify_email email env = (b, d) ∧ d ≠ "" ∧
      (isOkB (verify_email_body email env) = true ∨ verify_email email env = (false, "error")) ∧
      (b = false → appVerdict b d = Verdict.invalid ∨ appVerdict b d = Verdict.error) := by
  obtain ⟨oe, mx, smtp⟩ := env
  have hok : isOkB (verify_email_body email ⟨oe, mx, smtp⟩) = true ∨
      verify_email email ⟨oe, mx, smtp⟩ = (false, "error") := by
    cases oe with
    | some m => exact Or.inr rfl
    | none => exact Or.inl (body_isOk email mx smtp)
  rcases verify_email_cases email ⟨oe, mx, smtp⟩ with
    h | h | h | h | h | h | h | ⟨c, h⟩ | h | h | h | h | ⟨m2, h⟩
  · exact ⟨_, _, h, by decide, hok, fun _ => appVerdict_false _⟩
  · exact ⟨_, _, h, by decide, hok, fun _ => appVerdict_false _⟩
  · exact ⟨_, _, h,
      append_ne_of_length (p := "No MX record found for domain: ") (q := "")
        (emailDomain email) (by decide), hok, fun _ => appVerdict_false _⟩
  · exact ⟨_, _, h, by decide, hok, fun hb => absurd hb (by decide)⟩
  · exact ⟨_, _, h, by decide, hok, fun _ => appVerdict_false _⟩
  · exact ⟨_, _, h, by decide, hok, fun _ => appVerdict_false _⟩
  · exact ⟨_, _, h, by decide, hok, fun _ => appVerdict_false _⟩
  · exact ⟨_, _, h,
      append_ne_of_length (p := "SMTP error code: ") (q := "") (toString c) (by decide),
      hok, fun _ => appVerdict_false _⟩
  · exact ⟨_, _, h, by decide, hok, fun _ => appVerdict_false _⟩
  · exact ⟨_, _, h, by decide, hok, fun _ => appVerdict_false _⟩
  · exact ⟨_, _, h, by decide, hok, fun _ => appVerdict_false _⟩
  · exact ⟨_, _, h, by decide, hok, fun _ => appVerdict_false _⟩
  · exact ⟨_, _, h,
      append_ne_of_length (p := "SMTP error: ") (q := "") m2 (by decide),
      hok, fun _ => appVerdict_false _⟩

/-- Witness for C8 at a concrete input (an environment whose MX lookup
raises). -/
theorem probe_never_raises_witness :
    ∃ b d, verify_email "a@b.com"
        ⟨none, Except.error PyExc.smtpConnect, fun _ => Except.ok (250, "")⟩ = (b, d) ∧
      d ≠ "" ∧
      (isOkB (verify_email_body "a@b.com"
          ⟨none, Except.error PyExc.smtpConnect, fun _ => Except.ok (250, "")⟩) = true ∨
        verify_email "a@b.com"
          ⟨none, Except.error PyExc.smtpConnect, fun _ => Except.ok (250, "")⟩ =
          (false, "error")) ∧
      (b = false → appVerdict b d = Verdict.invalid ∨ appVerdict b d = Verdict.error) :=
  probe_never_raises "a@b.com"
    ⟨none, Except.error PyExc.smtpConnect, fun _ => Except.ok (250, "")⟩

/-- Claim C9 (counterexample): a resolution failure does not always yield
empty lists and false flags: when the MX query fails but the A query
succeeds, `get_domain_info` reports a nonempty address-record list and
`resolvable = True`. -/
theorem domain_info_partial_failure :
    (get_domain_info "a@b.com"
        ⟨Except.error "NoAnswer", Except.ok ["93.184.216.34"]⟩).resolvable = true ∧
    (get_domain_info "a@b.com"
        ⟨Except.error "NoAnswer", Except.ok ["93.184.216.34"]⟩).a_records ≠ [] :=
  ⟨rfl, by decide⟩

/-- Claim C9 (amended): `get_domain_info` never surfaces an exception (it is
total on every environment) and each failure empties its OWN record type: a
failed MX query gives `mx_records = []` and `has_mx = false`, a failed A
query gives `a_records = []` and `resolvable = false`, and a failure to
extract the domain (no `@` in the address) gives the all-empty, all-false
record with an error message. -/
theorem domain_info_failure_flags (email : String) (env : DnsEnv) :
    ((∃ m, env.mx = Except.error m) →
      (get_domain_info email env).mx_records = [] ∧
      (get_domain_info email env).has_mx = false) ∧
    ((∃ m, env.a = Except.error m) →
      (get_domain_info email env).a_records = [] ∧
      (get_domain_info email env).resolvable = false) ∧
    ((pySplitOnChar '@' email.data).length < 2 →
      get_domain_info email env =
        ⟨"unknown", [], [], false, false, some "list index out of range"⟩) := by
  obtain ⟨mx, a⟩ := env
  refine ⟨?_, ?_, ?_⟩
  · rintro ⟨m, rfl⟩
    by_cases hp : 2 ≤ (pySplitOnChar '@' email.data).length <;>
      simp [get_domain_info, hp]
  · rintro ⟨m, rfl⟩
    by_cases hp : 2 ≤ (pySplitOnChar '@' email.data).length <;>
      simp [get_domain_info, hp]
  · intro hlt
    have hp : ¬ 2 ≤ (pySplitOnChar '@' email.data).length := by omega
    simp [get_domain_info, hp]

/-- Witness for C9 (amended) at a concrete input: an address without `@` and
both queries failing. -/
theorem domain_info_failure_flags_witness :
    (get_domain_info "noat" ⟨Except.error "NXDOMAIN", Except.error "NXDOMAIN"⟩).has_mx
      = false ∧
    (get_domain_info "noat" ⟨Except.error "NXDOMAIN", Except.error "NXDOMAIN"⟩).resolvable
      = false ∧
    get_domain_info "noat" ⟨Except.error "NXDOMAIN", Except.error "NXDOMAIN"⟩ =
      ⟨"unknown", [], [], false, false, some "list index out of range"⟩ :=
  ⟨((domain_info_failure_flags "noat"
      ⟨Except.error "NXDOMAIN", Except.error "NXDOMAIN"⟩).1 ⟨"NXDOMAIN", rfl⟩).2,
   ((domain_info_failure_flags "noat"
      ⟨Except.error "NXDOMAIN", Except.error "NXDOMAIN"⟩).2.1 ⟨"NXDOMAIN", rfl⟩).2,
   (domain_info_failure_flags "noat"
      ⟨Except.error "NXDOMAIN", Except.error "NXDOMAIN"⟩).2.2 (by decide)⟩

/-- Claim C10 (confirmed): `verify_email` returns `is_valid = True` exactly
on the path where the recipient step returned status code 250 (outer
environment sound, format valid, MX lookup successful and non-empty), and
whenever `is_valid = True` the detail is exactly "Email address exists";
every other return path yields `is_valid = False`. -/
theorem valid_only_on_250 (email : String) (env : Env) :
    ((verify_email email env).1 = true ↔
      (env.outerExc = none ∧ _is_valid_email_format email = true ∧
        ∃ recs host msg, env.mxResult = Except.ok recs ∧ chosenMxHost recs = some host ∧
          env.smtpResult host = Except.ok (250, msg))) ∧
    ((verify_email email env).1 = true →
      (verify_email email env).2 = "Email address exists") := by
  obtain ⟨oe, mx, smtp⟩ := env
  cases oe with
  | some m => simp [verify_email, verify_email_body]
  | none =>
    cases hfmt : _is_valid_email_format email with
    | false => simp [verify_email, verify_email_body, hfmt]
    | true =>
      cases mx with
      | error e => simp [verify_email, verify_email_body, hfmt]
      | ok recs =>
        cases recs with
        | nil => simp [verify_email, verify_email_body, hfmt, chosenMxHost]
        | cons r rest =>
          cases hs : smtp (pyRstripDots r.2) with
          | error e =>
            cases e <;> simp [verify_email, verify_email_body, hfmt, chosenMxHost, hs]
          | ok p =>
            obtain ⟨code, msg⟩ := p
            by_cases hc : code = 250
            · subst hc
              simp [verify_email, verify_email_body, hfmt, chosenMxHost, hs]
            · by_cases h2 : code = 550
              · subst h2
                simp [verify_email, verify_email_body, hfmt, chosenMxHost, hs]
              · by_cases h3 : code = 552
                · subst h3
                  simp [verify_email, verify_email_body, hfmt, chosenMxHost, hs]
                · by_cases h4 : code = 553
                  · subst h4
                    simp [verify_email, verify_email_body, hfmt, chosenMxHost, hs]
                  · simp [verify_email, verify_email_body, hfmt, chosenMxHost, hs,
                      hc, h2, h3, h4]

/-- Witness for C10 at a concrete input on the success path. -/
theorem valid_only_on_250_witness :
    (verify_email "a@b.com"
        ⟨none, Except.ok [(10, "mx.b.com.")], fun _ => Except.ok (250, "ok")⟩).1 = true :=
  (valid_only_on_250 "a@b.com"
    ⟨none, Except.ok [(10, "mx.b.com.")], fun _ => Except.ok (250, "ok")⟩).1.mpr
    ⟨rfl, rfl, [(10, "mx.b.com.")], "mx.b.com", "ok", rfl, rfl, rfl⟩
